import Mathlib

/-!
Shallow embedding of the course-builder locale access layer.

Text values are embedded as lists of characters (JavaScript strings are
sequences of code units; slice / trim become List.take / trimStr).
Each route handler is a pure function from the database state and the
request inputs to an OpResult carrying the HTTP status, the response body,
the resulting database state, and the trace of store actions it issued.
The trace records, for every SQL statement, whether it was sent through the
shared pool (pool.query) or through the dedicated checked-out client
(client.query), plus the BEGIN / COMMIT / ROLLBACK statements, so that
transaction-scoping properties can be stated about the code as written.
-/

namespace CourseBuilder

abbrev Str := List Char

/-- The fixed closed set of language codes: ALLOWED = new Set(["ru","en","he"]). -/
def ALLOWED : List Str := ["ru".toList, "en".toList, "he".toList]

def isHexDigit (c : Char) : Bool :=
  ('0' ≤ c && c ≤ '9') || ('a' ≤ c && c ≤ 'f') || ('A' ≤ c && c ≤ 'F')

/-- Consume exactly n hex digits from the front, returning the rest. -/
def hexRun : Nat → Str → Option Str
  | 0, rest => some rest
  | n + 1, c :: rest => if isHexDigit c then hexRun n rest else none
  | _ + 1, [] => none

/-- The UUID shape check of the routes:
the regex over 8-4-4-4-12 hex digit groups, version digit in [1-5],
variant digit in [89ab] (case-insensitive). -/
def isUUID (s : Str) : Bool :=
  match hexRun 8 s with
  | some ('-' :: r1) =>
    (match hexRun 4 r1 with
     | some ('-' :: r2) =>
       (match r2 with
        | v :: r3 =>
          ('1' ≤ v && v ≤ '5') &&
          (match hexRun 3 r3 with
           | some ('-' :: r4) =>
             (match r4 with
              | w :: r5 =>
                (w = '8' || w = '9' || w = 'a' || w = 'b' || w = 'A' || w = 'B') &&
                (match hexRun 3 r5 with
                 | some ('-' :: r6) => hexRun 12 r6 == some []
                 | _ => false)
              | [] => false)
           | _ => false)
        | [] => false)
     | _ => false)
  | _ => false

/-- JavaScript String.prototype.trim on the character-list embedding. -/
def trimStr (s : Str) : Str :=
  ((s.dropWhile Char.isWhitespace).reverse.dropWhile Char.isWhitespace).reverse

structure Course where
  id : Str
  owner_id : Str
  title : Str
  status : Str
  supported_langs : List Str
  updated_at : Nat
deriving DecidableEq, Repr

structure CourseLocale where
  course_id : Str
  lang : Str
  title : Str
  description : Str
deriving DecidableEq, Repr

structure Module where
  id : Str
  course_id : Str
  order_index : Nat
deriving DecidableEq, Repr

structure ModuleLocale where
  module_id : Str
  lang : Str
  title : Str
  summary : Str
deriving DecidableEq, Repr

/-- The four tables of the relational store. -/
structure Db where
  courses : List Course
  course_locales : List CourseLocale
  modules : List Module
  module_locales : List ModuleLocale
deriving DecidableEq, Repr

/-- Which connection a statement was issued on: the shared pool
(pool.query, a fresh pooled connection per call) or the dedicated client
checked out by the handler (client.query). -/
inductive Conn
  | pool
  | client
deriving DecidableEq, Repr

/-- Labels for the SQL statements the handlers issue. -/
inductive Stmt
  | selectOwner
  | selectOwnerByModule
  | selectLocaleExists
  | insertCourseLocale
  | updateSupportedLangs
  | updateCourseLocale
  | insertModuleLocale
  | updateModuleLocale
  | selectCourse
  | selectLangs
  | selectLocale
  | insertCourse
  | insertModule
  | selectMaxOrder
  | selectOutline
  | selectCourseList
deriving DecidableEq, Repr

/-- One store interaction, as recorded in a handler's trace. -/
inductive Action
  | beginTx
  | commitTx
  | rollbackTx
  | query (c : Conn) (s : Stmt)
deriving DecidableEq, Repr

/-- Result of one route handler: HTTP status, response body, resulting
database state and the trace of store actions issued. -/
structure OpResult (α : Type) where
  status : Nat
  body : α
  db : Db
  trace : List Action
deriving DecidableEq, Repr

/-- ensureOwner of the course-locale route: SELECT 1 FROM course WHERE
id=$1 AND owner_id=$2, issued through pool.query. -/
def ensureOwner (db : Db) (courseId userId : Str) : Bool :=
  db.courses.any (fun c => c.id == courseId && c.owner_id == userId)

/-- ensureOwnerByModule of the module-locale route: SELECT 1 FROM module m
JOIN course c ON c.id = m.course_id WHERE m.id = $1 AND c.owner_id = $2. -/
def ensureOwnerByModule (db : Db) (moduleId userId : Str) : Bool :=
  db.modules.any (fun m => m.id == moduleId &&
    db.courses.any (fun c => c.id == m.course_id && c.owner_id == userId))

/-- The per-language placeholder titles of POST /api/courses
(ru: "Новый курс", en: "New Course", he: "קורס חדש"). -/
def defaultCourseTitle (lang : Str) : Str :=
  if lang == "ru".toList then "Новый курс".toList
  else if lang == "en".toList then "New Course".toList
  else "קורס חדש".toList

/-- searchParams.get("lang") || "ru" — a missing or empty parameter falls
back to "ru". -/
def langQueryParam (p : Option Str) : Str :=
  match p with
  | some l => if l == [] then "ru".toList else l
  | none => "ru".toList

structure CourseCreateBody where
  lang : Option Str
  title : Option Str
  description : Option Str
deriving DecidableEq, Repr

structure CourseLocaleBody where
  lang : Option Str
  title : Option Str
  description : Option Str
deriving DecidableEq, Repr

structure ModuleLocaleBody where
  lang : Option Str
  title : Option Str
  summary : Option Str
deriving DecidableEq, Repr

/-- POST /api/courses — create a course together with its first locale.
now stands for both Date.now() (technical title) and the SQL now()
returned into updated_at; newId is the identifier the store generates for
the course row. The status column is filled by the schema's default, which
is outside src; the spec names draft as the example lifecycle status. -/
def coursesPOST (db : Db) (now : Nat) (newId : Str) (userId? : Option Str)
    (body : CourseCreateBody) : OpResult (Option Str) :=
  match userId? with
  | none => ⟨500, none, db, []⟩
  | some userId =>
    match body.lang with
    | none => ⟨400, none, db, []⟩
    | some lang =>
      if !(ALLOWED.contains lang) then ⟨400, none, db, []⟩
      else
        let safeTitle := (body.title.getD (defaultCourseTitle lang)).take 120
        let safeDesc := (body.description.getD []).take 2000
        let techTitle := "course-".toList ++ Nat.toDigits 10 now
        let course : Course := ⟨newId, userId, techTitle, "draft".toList, [lang], now⟩
        let locale : CourseLocale := ⟨newId, lang, safeTitle, safeDesc⟩
        ⟨201, some newId,
         { db with courses := db.courses ++ [course],
                   course_locales := db.course_locales ++ [locale] },
         [.beginTx, .query .client .insertCourse, .query .client .insertCourseLocale,
          .commitTx]⟩

/-- POST /api/courses/[id]/locale — create a course locale. -/
def courseLocalePOST (db : Db) (now : Nat) (id : Str) (userId? : Option Str)
    (body : CourseLocaleBody) : OpResult Unit :=
  if !(isUUID id) then ⟨400, (), db, []⟩
  else
    match userId? with
    | none => ⟨500, (), db, []⟩
    | some userId =>
      match body.lang with
      | none => ⟨400, (), db, []⟩
      | some lang =>
        if !(ALLOWED.contains lang) then ⟨400, (), db, []⟩
        else
          let ttl := trimStr (body.title.getD [])
          if ttl == [] then ⟨400, (), db, []⟩
          else
            let desc := body.description.getD []
            if !(ensureOwner db id userId) then
              ⟨403, (), db, [.beginTx, .query .pool .selectOwner, .rollbackTx]⟩
            else if db.course_locales.any (fun l => l.course_id == id && l.lang == lang) then
              ⟨409, (), db, [.beginTx, .query .pool .selectOwner,
                             .query .client .selectLocaleExists, .rollbackTx]⟩
            else
              let row : CourseLocale := ⟨id, lang, ttl.take 120, desc.take 4000⟩
              let db1 : Db :=
                { db with
                  course_locales := db.course_locales ++ [row],
                  courses := db.courses.map (fun c =>
                    if c.id == id then
                      { c with
                        supported_langs :=
                          if c.supported_langs.contains lang then c.supported_langs
                          else c.supported_langs ++ [lang],
                        updated_at := now }
                    else c) }
              ⟨201, (), db1,
               [.beginTx, .query .pool .selectOwner, .query .client .selectLocaleExists,
                .query .client .insertCourseLocale, .query .client .updateSupportedLangs,
                .commitTx]⟩

/-- PATCH /api/courses/[id]/locale — partial update of a course locale
with COALESCE semantics; the title and description parameters are
title?.slice(0,120) and description?.slice(0,4000). -/
def courseLocalePATCH (db : Db) (id : Str) (userId? : Option Str)
    (body : CourseLocaleBody) : OpResult Unit :=
  if !(isUUID id) then ⟨400, (), db, []⟩
  else
    match userId? with
    | none => ⟨500, (), db, []⟩
    | some userId =>
      match body.lang with
      | none => ⟨400, (), db, []⟩
      | some lang =>
        if !(ALLOWED.contains lang) then ⟨400, (), db, []⟩
        else if !(ensureOwner db id userId) then
          ⟨403, (), db, [.beginTx, .query .pool .selectOwner, .rollbackTx]⟩
        else if !(db.course_locales.any (fun l => l.course_id == id && l.lang == lang)) then
          ⟨404, (), db, [.beginTx, .query .pool .selectOwner,
                         .query .client .updateCourseLocale, .rollbackTx]⟩
        else
          let db1 : Db :=
            { db with
              course_locales := db.course_locales.map (fun l =>
                if l.course_id == id && l.lang == lang then
                  { l with
                    title := (body.title.map (List.take 120)).getD l.title,
                    description := (body.description.map (List.take 4000)).getD l.description }
                else l) }
          ⟨200, (), db1,
           [.beginTx, .query .pool .selectOwner, .query .client .updateCourseLocale,
            .commitTx]⟩

/-- POST /api/modules/[id]/locale — create a module locale via a single
INSERT ... ON CONFLICT (module_id, lang) DO NOTHING; there is no BEGIN,
and both statements go through pool.query. -/
def moduleLocalePOST (db : Db) (id : Str) (userId? : Option Str)
    (body : ModuleLocaleBody) : OpResult Unit :=
  if !(isUUID id) then ⟨400, (), db, []⟩
  else
    match userId? with
    | none => ⟨500, (), db, []⟩
    | some userId =>
      match body.lang with
      | none => ⟨400, (), db, []⟩
      | some lang =>
        if !(ALLOWED.contains lang) then ⟨400, (), db, []⟩
        else
          let ttl := trimStr (body.title.getD [])
          if ttl == [] then ⟨400, (), db, []⟩
          else
            let sum := body.summary.getD []
            if !(ensureOwnerByModule db id userId) then
              ⟨403, (), db, [.query .pool .selectOwnerByModule]⟩
            else if db.module_locales.any (fun l => l.module_id == id && l.lang == lang) then
              ⟨409, (), db, [.query .pool .selectOwnerByModule,
                             .query .pool .insertModuleLocale]⟩
            else
              ⟨201, (),
               { db with module_locales :=
                   db.module_locales ++ [⟨id, lang, ttl.take 120, sum.take 4000⟩] },
               [.query .pool .selectOwnerByModule, .query .pool .insertModuleLocale]⟩

/-- PATCH /api/modules/[id]/locale — partial update of a module locale
with COALESCE semantics, no transaction, both statements on pool.query. -/
def moduleLocalePATCH (db : Db) (id : Str) (userId? : Option Str)
    (body : ModuleLocaleBody) : OpResult Unit :=
  if !(isUUID id) then ⟨400, (), db, []⟩
  else
    match userId? with
    | none => ⟨500, (), db, []⟩
    | some userId =>
      match body.lang with
      | none => ⟨400, (), db, []⟩
      | some lang =>
        if !(ALLOWED.contains lang) then ⟨400, (), db, []⟩
        else if !(ensureOwnerByModule db id userId) then
          ⟨403, (), db, [.query .pool .selectOwnerByModule]⟩
        else if !(db.module_locales.any (fun l => l.module_id == id && l.lang == lang)) then
          ⟨404, (), db, [.query .pool .selectOwnerByModule,
                         .query .pool .updateModuleLocale]⟩
        else
          let db1 : Db :=
            { db with
              module_locales := db.module_locales.map (fun l =>
                if l.module_id == id && l.lang == lang then
                  { l with
                    title := (body.title.map (List.take 120)).getD l.title,
                    summary := (body.summary.map (List.take 4000)).getD l.summary }
                else l) }
          ⟨200, (), db1,
           [.query .pool .selectOwnerByModule, .query .pool .updateModuleLocale]⟩

/-- POST /api/courses/[id]/modules — create a module; order_index is
COALESCE(MAX(order_index), 0) + 1 over the course's modules. newId is the
identifier the store generates for the module row. -/
def modulesPOST (db : Db) (newId : Str) (id : Str) (userId? : Option Str) :
    OpResult (Option (Str × Nat)) :=
  if !(isUUID id) then ⟨400, none, db, []⟩
  else
    match userId? with
    | none => ⟨401, none, db, []⟩
    | some userId =>
      match db.courses.find? (fun c => c.id == id) with
      | none => ⟨404, none, db, [.query .pool .selectCourse]⟩
      | some c =>
        if !(c.owner_id == userId) then
          ⟨403, none, db, [.query .pool .selectCourse]⟩
        else
          let nextOrder :=
            (((db.modules.filter (fun m => m.course_id == id)).map
                Module.order_index).foldl max 0) + 1
          ⟨201, some (newId, nextOrder),
           { db with modules := db.modules ++ [⟨newId, id, nextOrder⟩] },
           [.query .pool .selectCourse, .query .pool .selectMaxOrder,
            .query .pool .insertModule]⟩

structure OutlineItem where
  id : Str
  order_index : Nat
  has_locale : Bool
  title : Option Str
deriving DecidableEq, Repr

/-- ORDER BY m.order_index ASC on the course's modules. -/
def byOrder (a b : Module) : Prop := a.order_index ≤ b.order_index

instance : DecidableRel byOrder := fun a b => Nat.decLe a.order_index b.order_index

instance : IsTotal Module byOrder := ⟨fun a b => Nat.le_total a.order_index b.order_index⟩

instance : IsTrans Module byOrder := ⟨fun _ _ _ => Nat.le_trans⟩

/-- The LEFT JOIN annotation of one outline row: has_locale :=
(ml.module_id IS NOT NULL), title := ml.title. -/
def annotateModule (db : Db) (lang : Str) (m : Module) : OutlineItem :=
  match db.module_locales.find? (fun l => l.module_id == m.id && l.lang == lang) with
  | some l => ⟨m.id, m.order_index, true, some l.title⟩
  | none => ⟨m.id, m.order_index, false, none⟩

/-- The rows of the outline query: modules of the course ordered by
order_index ascending, LEFT JOINed against module_locale on the requested
language. -/
def outlineItems (db : Db) (cid lang : Str) : List OutlineItem :=
  (List.insertionSort byOrder (db.modules.filter (fun m => m.course_id == cid))).map
    (annotateModule db lang)

/-- GET /api/courses/[id]/outline. -/
def outlineGET (db : Db) (id : Str) (langParam : Option Str) :
    OpResult (Option (Str × List OutlineItem)) :=
  let lang := langQueryParam langParam
  if !(isUUID id) then ⟨400, none, db, []⟩
  else if !(ALLOWED.contains lang) then ⟨400, none, db, []⟩
  else ⟨200, some (lang, outlineItems db id lang), db, [.query .pool .selectOutline]⟩

/-- ORDER BY lang on the available language codes (lexicographic on the
character lists). -/
def strLe : Str → Str → Bool
  | [], _ => true
  | _ :: _, [] => false
  | a :: as, b :: bs => if a < b then true else if a = b then strLe as bs else false

structure CourseDetail where
  id : Str
  status : Str
  supported_langs : List Str
  updated_at : Nat
  available_langs : List Str
  requested_lang : Str
  missing : Bool
  locale : Option CourseLocale
deriving DecidableEq, Repr

/-- GET /api/courses/[id] — fetch a course, its available locale languages
and the locale row for the requested language, with the missing flag. -/
def courseGET (db : Db) (id : Str) (langParam : Option Str) :
    OpResult (Option CourseDetail) :=
  let lang := langQueryParam langParam
  if !(ALLOWED.contains lang) then ⟨400, none, db, []⟩
  else if !(isUUID id) then ⟨400, none, db, []⟩
  else
    match db.courses.find? (fun c => c.id == id) with
    | none => ⟨404, none, db, [.query .client .selectCourse]⟩
    | some c =>
      let available := List.insertionSort (fun a b => strLe a b = true)
        ((db.course_locales.filter (fun l => l.course_id == id)).map CourseLocale.lang)
      let locale? := db.course_locales.find? (fun l => l.course_id == id && l.lang == lang)
      ⟨200,
       some ⟨c.id, c.status, c.supported_langs, c.updated_at, available, lang,
             locale?.isNone, locale?⟩,
       db,
       [.query .client .selectCourse, .query .client .selectLangs,
        .query .client .selectLocale]⟩

structure CourseCard where
  id : Str
  lang : Str
  title : Str
  description : Str
  status : Str
  supported_langs : List Str
  updated_at : Nat
deriving DecidableEq, Repr

/-- GET /api/courses — the acting user's courses joined with their locale
rows for the requested language, ORDER BY updated_at DESC. -/
def coursesGET (db : Db) (langParam : Option Str) (userId? : Option Str) :
    OpResult (Option (List CourseCard)) :=
  let lang := langQueryParam langParam
  if !(ALLOWED.contains lang) then ⟨400, none, db, []⟩
  else
    match userId? with
    | none => ⟨500, none, db, []⟩
    | some userId =>
      let rows :=
        (db.courses.filter (fun c => c.owner_id == userId)).flatMap (fun c =>
          (db.course_locales.filter (fun l => l.course_id == c.id && l.lang == lang)).map
            (fun l => CourseCard.mk c.id l.lang l.title l.description c.status
              c.supported_langs c.updated_at))
      ⟨200, some (List.insertionSort (fun a b => b.updated_at ≤ a.updated_at) rows),
       db, [.query .pool .selectCourseList]⟩

/-- Does a store action run on the dedicated transaction client? -/
def isClientQuery : Action → Bool
  | .query .client _ => true
  | _ => false

/-- A trace is contained in one store transaction when it opens with BEGIN,
closes with COMMIT or ROLLBACK, and every statement in between runs on the
dedicated client connection that issued the BEGIN. -/
def withinOneTransaction (tr : List Action) : Bool :=
  match tr with
  | .beginTx :: rest =>
    (match rest.getLast? with
     | some .commitTx => rest.dropLast.all isClientQuery
     | some .rollbackTx => rest.dropLast.all isClientQuery
     | _ => false)
  | _ => false

/-- The store-interaction shape the course-locale mutations actually have:
either no store access at all (input validation failed), or a BEGIN,
immediately followed by the ownership check issued through the shared pool
(and therefore outside the transaction), then statements on the dedicated
client connection, closed by COMMIT or ROLLBACK. -/
def courseLocaleTxnShape (tr : List Action) : Bool :=
  match tr with
  | [] => true
  | .beginTx :: .query .pool .selectOwner :: rest =>
    (match rest.getLast? with
     | some .commitTx => rest.dropLast.all isClientQuery
     | some .rollbackTx => rest.dropLast.all isClientQuery
     | _ => false)
  | _ => false

/-- The store-interaction shape the module-locale mutations actually have:
either no store access at all, or the ownership check followed by at most
one further statement, all through the shared pool with no BEGIN, COMMIT
or ROLLBACK anywhere. -/
def moduleLocalePoolShape (tr : List Action) : Bool :=
  match tr with
  | [] => true
  | .query .pool .selectOwnerByModule :: rest =>
      rest.all (fun a => match a with | .query .pool _ => true | _ => false)
  | _ => false

/-! Concrete fixtures used by the witness and counterexample theorems. -/

def uuidA : Str := "11111111-1111-1111-8111-111111111111".toList

def uuidB : Str := "22222222-2222-2222-9222-222222222222".toList

def uuidM1 : Str := "33333333-3333-3333-8333-333333333333".toList

def uuidM2 : Str := "44444444-4444-4444-8444-444444444444".toList

def uuidM5 : Str := "77777777-7777-1777-8777-777777777777".toList

def uuidNew : Str := "88888888-8888-1888-8888-888888888888".toList

def user1 : Str := "55555555-5555-5555-8555-555555555555".toList

def user2 : Str := "66666666-6666-6666-8666-666666666666".toList

def course1 : Course := ⟨uuidA, user1, "course-1".toList, "draft".toList, ["ru".toList], 10⟩

def courseB : Course := ⟨uuidB, user1, "course-2".toList, "draft".toList, ["ru".toList], 11⟩

def locRu : CourseLocale := ⟨uuidA, "ru".toList, "Курс".toList, "Описание".toList⟩

def mod1 : Module := ⟨uuidM1, uuidA, 1⟩

def mod2 : Module := ⟨uuidM2, uuidA, 2⟩

def mod5 : Module := ⟨uuidM5, uuidA, 5⟩

def mloc1 : ModuleLocale := ⟨uuidM1, "ru".toList, "Intro".toList, "s".toList⟩

/-- A course with one ru locale, modules at order 1 and 2, and a ru locale
on the first module. -/
def db1 : Db := ⟨[course1], [locRu], [mod1, mod2], [mloc1]⟩

/-- Two courses: course1 with modules at order 1, 2 and 5; courseB with no
modules. -/
def dbOrders : Db := ⟨[course1, courseB], [locRu], [mod1, mod2, mod5], [mloc1]⟩

/-- The empty store. -/
def db0 : Db := ⟨[], [], [], []⟩

/-! General helper lemmas. -/

theorem find?_map_update {α : Type} (p : α → Bool) (f : α → α)
    (hf : ∀ a, p (f a) = p a) (l : List α) :
    (l.map (fun a => if p a then f a else a)).find? p = (l.find? p).map f := by
  induction l with
  | nil => rfl
  | cons x xs ih =>
    by_cases hx : p x = true
    · rw [List.map_cons, if_pos hx, List.find?_cons_of_pos _ ((hf x).trans hx),
        List.find?_cons_of_pos _ hx, Option.map_some']
    · rw [List.map_cons, if_neg hx, List.find?_cons_of_neg _ hx,
        List.find?_cons_of_neg _ hx, ih]

theorem mem_map_update_of_not {α : Type} (p : α → Bool) (f : α → α) {l : List α} {x : α}
    (hx : x ∈ l) (hpx : p x = false) :
    x ∈ l.map (fun a => if p a then f a else a) := by
  refine List.mem_map.mpr ⟨x, hx, ?_⟩
  simp [hpx]

theorem init_le_foldl_max (xs : List Nat) (a : Nat) : a ≤ xs.foldl max a := by
  induction xs generalizing a with
  | nil => simp
  | cons y ys ih => exact le_trans (Nat.le_max_left a y) (ih (max a y))

theorem mem_le_foldl_max {x : Nat} {xs : List Nat} (a : Nat) (h : x ∈ xs) :
    x ≤ xs.foldl max a := by
  induction xs generalizing a with
  | nil => cases h
  | cons y ys ih =>
    rcases List.mem_cons.mp h with h | h
    · subst h
      exact le_trans (Nat.le_max_right a x) (init_le_foldl_max ys (max a x))
    · exact ih (max a y) h

theorem foldl_max_mem (xs : List Nat) (a : Nat) : xs.foldl max a ∈ a :: xs := by
  induction xs generalizing a with
  | nil => simp
  | cons x xs ih =>
    rw [List.foldl_cons]
    rcases List.mem_cons.mp (ih (max a x)) with h | h
    · rcases max_choice a x with hm | hm
      · exact List.mem_cons.mpr (Or.inl (h.trans hm))
      · exact List.mem_cons.mpr (Or.inr (List.mem_cons.mpr (Or.inl (h.trans hm))))
    · exact List.mem_cons.mpr (Or.inr (List.mem_cons.mpr (Or.inr h)))

theorem allowed_lang_ne_nil {lang : Str} (h : ALLOWED.contains lang = true) :
    (lang == ([] : Str)) = false := by
  have hmem : lang ∈ ALLOWED := by simpa using h
  fin_cases hmem <;> decide

theorem ensureOwner_eq_false_of_other_owner {db : Db} {id u : Str}
    (h : ∀ c ∈ db.courses, c.id = id → c.owner_id ≠ u) :
    ensureOwner db id u = false := by
  apply List.any_eq_false.mpr
  intro c hc hco
  simp only [Bool.and_eq_true, beq_iff_eq] at hco
  exact h c hc hco.1 hco.2

theorem ensureOwnerByModule_eq_false_of_other_owner {db : Db} {mid u : Str}
    (h : ∀ m ∈ db.modules, m.id = mid →
      ∀ c ∈ db.courses, c.id = m.course_id → c.owner_id ≠ u) :
    ensureOwnerByModule db mid u = false := by
  apply List.any_eq_false.mpr
  intro m hm hmo
  simp only [Bool.and_eq_true, beq_iff_eq, List.any_eq_true] at hmo
  obtain ⟨h1, c, hc, h2, h3⟩ := hmo
  exact h m hm h1 c hc h2 h3

theorem ensureOwner_eq_false_of_no_course {db : Db} {id : Str} (u : Str)
    (h : ∀ c ∈ db.courses, c.id ≠ id) :
    ensureOwner db id u = false :=
  ensureOwner_eq_false_of_other_owner (fun c hc h1 => absurd h1 (h c hc))

theorem ensureOwnerByModule_eq_false_of_no_module {db : Db} {mid : Str} (u : Str)
    (h : ∀ m ∈ db.modules, m.id ≠ mid) :
    ensureOwnerByModule db mid u = false :=
  ensureOwnerByModule_eq_false_of_other_owner
    (fun m hm h1 => absurd h1 (h m hm))

/-! Claim theorems. -/

/-- C1 counterexample: the claim says the ownership check, the
existence/uniqueness check and the row write of the four locale mutations
all execute inside one store transaction. This is false for the code as
written: in a successful course-locale create the ownership check
(ensureOwner) is issued through the shared pool — a different connection —
while BEGIN/COMMIT run on the dedicated client, and a successful
module-locale create issues no BEGIN at all; so neither trace lies within
one transaction even though both reached the store. -/
theorem c1_counterexample :
    ((courseLocalePOST db1 99 uuidA (some user1)
        ⟨some "en".toList, some "T".toList, none⟩).trace ≠ [] ∧
      withinOneTransaction (courseLocalePOST db1 99 uuidA (some user1)
        ⟨some "en".toList, some "T".toList, none⟩).trace = false) ∧
    ((moduleLocalePOST db1 uuidM2 (some user1)
        ⟨some "ru".toList, some "T2".toList, none⟩).trace ≠ [] ∧
      withinOneTransaction (moduleLocalePOST db1 uuidM2 (some user1)
        ⟨some "ru".toList, some "T2".toList, none⟩).trace = false) := by
  refine ⟨⟨by decide, by decide⟩, ⟨by decide, by decide⟩⟩

/-- C1 (amended): for every input, the course-locale create and update
either issue no store action (validation failed) or issue a BEGIN followed
by the ownership check on the shared pool — hence outside the transaction —
with every remaining statement on the dedicated client up to the final
COMMIT or ROLLBACK; the module-locale create and update either issue no
store action or issue only pool statements, with no transaction at all,
the create relying on the single INSERT ... ON CONFLICT DO NOTHING
statement for uniqueness arbitration. -/
theorem c1_locale_mutation_store_shape (db : Db) (now : Nat) (id mid : Str)
    (u? : Option Str) (b : CourseLocaleBody) (mb : ModuleLocaleBody) :
    courseLocaleTxnShape (courseLocalePOST db now id u? b).trace = true ∧
    courseLocaleTxnShape (courseLocalePATCH db id u? b).trace = true ∧
    moduleLocalePoolShape (moduleLocalePOST db mid u? mb).trace = true ∧
    moduleLocalePoolShape (moduleLocalePATCH db mid u? mb).trace = true := by
  refine ⟨?_, ?_, ?_, ?_⟩
  · unfold courseLocalePOST
    dsimp only
    repeat' (first | rfl | split)
  · unfold courseLocalePATCH
    dsimp only
    repeat' (first | rfl | split)
  · unfold moduleLocalePOST
    dsimp only
    repeat' (first | rfl | split)
  · unfold moduleLocalePATCH
    dsimp only
    repeat' (first | rfl | split)

/-- C4: creating a course locale or a module locale for a (parent,
language) pair that already has a locale row fails with 409 Conflict and
leaves the store byte-for-byte unchanged (the request being otherwise
valid: well-formed id, configured acting user who owns the course, allowed
language, non-empty trimmed title — a non-owner request is instead
rejected with 403 before the conflict check, which is claim C5). -/
theorem c4_conflict_leaves_store_unchanged (db : Db) (now : Nat)
    (id mid u langC langM : Str) (tl dsc mtl msm : Option Str)
    (hid : isUUID id = true) (hmid : isUUID mid = true)
    (hlC : ALLOWED.contains langC = true) (hlM : ALLOWED.contains langM = true)
    (htl : (trimStr (tl.getD []) == ([] : Str)) = false)
    (hmtl : (trimStr (mtl.getD []) == ([] : Str)) = false)
    (ho : ensureOwner db id u = true)
    (hom : ensureOwnerByModule db mid u = true)
    (hex : db.course_locales.any (fun l => l.course_id == id && l.lang == langC) = true)
    (hmex : db.module_locales.any (fun l => l.module_id == mid && l.lang == langM) = true) :
    ((courseLocalePOST db now id (some u) ⟨some langC, tl, dsc⟩).status = 409 ∧
     (courseLocalePOST db now id (some u) ⟨some langC, tl, dsc⟩).db = db) ∧
    ((moduleLocalePOST db mid (some u) ⟨some langM, mtl, msm⟩).status = 409 ∧
     (moduleLocalePOST db mid (some u) ⟨some langM, mtl, msm⟩).db = db) := by
  have hlC2 : langC ∈ ALLOWED := by simpa using hlC
  have hlM2 : langM ∈ ALLOWED := by simpa using hlM
  simp [courseLocalePOST, moduleLocalePOST, hid, hmid, hlC2, hlM2, htl, hmtl,
    ho, hom, hex, hmex]

/-- C4 witness: on the fixture store, re-creating the existing ru course
locale and the existing ru module locale both answer 409 and leave the
store unchanged. -/
theorem c4_conflict_leaves_store_unchanged_witness :
    ((courseLocalePOST db1 99 uuidA (some user1)
        ⟨some "ru".toList, some "T".toList, none⟩).status = 409 ∧
     (courseLocalePOST db1 99 uuidA (some user1)
        ⟨some "ru".toList, some "T".toList, none⟩).db = db1) ∧
    ((moduleLocalePOST db1 uuidM1 (some user1)
        ⟨some "ru".toList, some "T".toList, none⟩).status = 409 ∧
     (moduleLocalePOST db1 uuidM1 (some user1)
        ⟨some "ru".toList, some "T".toList, none⟩).db = db1) :=
  c4_conflict_leaves_store_unchanged db1 99 uuidA uuidM1 user1
    "ru".toList "ru".toList (some "T".toList) none (some "T".toList) none
    (by decide) (by decide) (by decide) (by decide) (by decide) (by decide)
    (by decide) (by decide) (by decide) (by decide)

/-- C5: a course-locale or module-locale mutation attempted by an acting
user who is not the owner of the course (for modules: of the module's
course) answers 403 and leaves every table unchanged, whether or not the
target locale row exists. -/
theorem c5_non_owner_mutation_denied (db : Db) (now : Nat)
    (id mid u langC langM : Str) (tl dsc mtl msm : Option Str)
    (hid : isUUID id = true) (hmid : isUUID mid = true)
    (hlC : ALLOWED.contains langC = true) (hlM : ALLOWED.contains langM = true)
    (htl : (trimStr (tl.getD []) == ([] : Str)) = false)
    (hmtl : (trimStr (mtl.getD []) == ([] : Str)) = false)
    (hno : ∀ c ∈ db.courses, c.id = id → c.owner_id ≠ u)
    (hnoM : ∀ m ∈ db.modules, m.id = mid →
      ∀ c ∈ db.courses, c.id = m.course_id → c.owner_id ≠ u) :
    ((courseLocalePOST db now id (some u) ⟨some langC, tl, dsc⟩).status = 403 ∧
     (courseLocalePOST db now id (some u) ⟨some langC, tl, dsc⟩).db = db) ∧
    ((courseLocalePATCH db id (some u) ⟨some langC, tl, dsc⟩).status = 403 ∧
     (courseLocalePATCH db id (some u) ⟨some langC, tl, dsc⟩).db = db) ∧
    ((moduleLocalePOST db mid (some u) ⟨some langM, mtl, msm⟩).status = 403 ∧
     (moduleLocalePOST db mid (some u) ⟨some langM, mtl, msm⟩).db = db) ∧
    ((moduleLocalePATCH db mid (some u) ⟨some langM, mtl, msm⟩).status = 403 ∧
     (moduleLocalePATCH db mid (some u) ⟨some langM, mtl, msm⟩).db = db) := by
  have hlC2 : langC ∈ ALLOWED := by simpa using hlC
  have hlM2 : langM ∈ ALLOWED := by simpa using hlM
  have h1 := ensureOwner_eq_false_of_other_owner hno
  have h2 := ensureOwnerByModule_eq_false_of_other_owner hnoM
  simp [courseLocalePOST, courseLocalePATCH, moduleLocalePOST, moduleLocalePATCH,
    hid, hmid, hlC2, hlM2, htl, hmtl, h1, h2]

/-- C5 witness: on the fixture store, user2 (not the owner) is answered
403 on all four locale mutations, for an existing locale (course ru,
module ru) as well as through the same theorem with no write anywhere. -/
theorem c5_non_owner_mutation_denied_witness :
    ((courseLocalePOST db1 99 uuidA (some user2)
        ⟨some "ru".toList, some "T".toList, none⟩).status = 403 ∧
     (courseLocalePOST db1 99 uuidA (some user2)
        ⟨some "ru".toList, some "T".toList, none⟩).db = db1) ∧
    ((courseLocalePATCH db1 uuidA (some user2)
        ⟨some "ru".toList, some "T".toList, none⟩).status = 403 ∧
     (courseLocalePATCH db1 uuidA (some user2)
        ⟨some "ru".toList, some "T".toList, none⟩).db = db1) ∧
    ((moduleLocalePOST db1 uuidM1 (some user2)
        ⟨some "ru".toList, some "T".toList, none⟩).status = 403 ∧
     (moduleLocalePOST db1 uuidM1 (some user2)
        ⟨some "ru".toList, some "T".toList, none⟩).db = db1) ∧
    ((moduleLocalePATCH db1 uuidM1 (some user2)
        ⟨some "ru".toList, some "T".toList, none⟩).status = 403 ∧
     (moduleLocalePATCH db1 uuidM1 (some user2)
        ⟨some "ru".toList, some "T".toList, none⟩).db = db1) :=
  c5_non_owner_mutation_denied db1 99 uuidA uuidM1 user2
    "ru".toList "ru".toList (some "T".toList) none (some "T".toList) none
    (by decide) (by decide) (by decide) (by decide) (by decide) (by decide)
    (by decide) (by decide)

/-- C10: a course-locale or module-locale create or update whose
well-formed target id matches no course (respectively no module) at all is
answered 403 — because the ownership lookup finds no owning row — and not
404, and leaves every table unchanged. -/
theorem c10_missing_parent_yields_403 (db : Db) (now : Nat)
    (id mid u langC langM : Str) (tl dsc mtl msm : Option Str)
    (hid : isUUID id = true) (hmid : isUUID mid = true)
    (hlC : ALLOWED.contains langC = true) (hlM : ALLOWED.contains langM = true)
    (htl : (trimStr (tl.getD []) == ([] : Str)) = false)
    (hmtl : (trimStr (mtl.getD []) == ([] : Str)) = false)
    (hnoC : ∀ c ∈ db.courses, c.id ≠ id)
    (hnoM : ∀ m ∈ db.modules, m.id ≠ mid) :
    ((courseLocalePOST db now id (some u) ⟨some langC, tl, dsc⟩).status = 403 ∧
     (courseLocalePOST db now id (some u) ⟨some langC, tl, dsc⟩).db = db) ∧
    ((courseLocalePATCH db id (some u) ⟨some langC, tl, dsc⟩).status = 403 ∧
     (courseLocalePATCH db id (some u) ⟨some langC, tl, dsc⟩).db = db) ∧
    ((moduleLocalePOST db mid (some u) ⟨some langM, mtl, msm⟩).status = 403 ∧
     (moduleLocalePOST db mid (some u) ⟨some langM, mtl, msm⟩).db = db) ∧
    ((moduleLocalePATCH db mid (some u) ⟨some langM, mtl, msm⟩).status = 403 ∧
     (moduleLocalePATCH db mid (some u) ⟨some langM, mtl, msm⟩).db = db) := by
  have hlC2 : langC ∈ ALLOWED := by simpa using hlC
  have hlM2 : langM ∈ ALLOWED := by simpa using hlM
  have h1 := ensureOwner_eq_false_of_no_course u hnoC
  have h2 := ensureOwnerByModule_eq_false_of_no_module u hnoM
  simp [courseLocalePOST, courseLocalePATCH, moduleLocalePOST, moduleLocalePATCH,
    hid, hmid, hlC2, hlM2, htl, hmtl, h1, h2]

/-- C10 witness: on the fixture store, a well-formed id that matches no
course and no module is answered 403 (not 404) on all four locale
mutations, with no write. -/
theorem c10_missing_parent_yields_403_witness :
    ((courseLocalePOST db1 99 uuidNew (some user1)
        ⟨some "ru".toList, some "T".toList, none⟩).status = 403 ∧
     (courseLocalePOST db1 99 uuidNew (some user1)
        ⟨some "ru".toList, some "T".toList, none⟩).db = db1) ∧
    ((courseLocalePATCH db1 uuidNew (some user1)
        ⟨some "ru".toList, some "T".toList, none⟩).status = 403 ∧
     (courseLocalePATCH db1 uuidNew (some user1)
        ⟨some "ru".toList, some "T".toList, none⟩).db = db1) ∧
    ((moduleLocalePOST db1 uuidNew (some user1)
        ⟨some "ru".toList, some "T".toList, none⟩).status = 403 ∧
     (moduleLocalePOST db1 uuidNew (some user1)
        ⟨some "ru".toList, some "T".toList, none⟩).db = db1) ∧
    ((moduleLocalePATCH db1 uuidNew (some user1)
        ⟨some "ru".toList, some "T".toList, none⟩).status = 403 ∧
     (moduleLocalePATCH db1 uuidNew (some user1)
        ⟨some "ru".toList, some "T".toList, none⟩).db = db1) :=
  c10_missing_parent_yields_403 db1 99 uuidNew uuidNew user1
    "ru".toList "ru".toList (some "T".toList) none (some "T".toList) none
    (by decide) (by decide) (by decide) (by decide) (by decide) (by decide)
    (by decide) (by decide)

/-- C7: creating a module on an existing course owned by the acting user
returns 201 and assigns the new module an order index k that is strictly
greater than every existing order index of that course's modules, equals 1
when the course has no modules, and is one greater than some existing
order index otherwise; the new module row is appended with exactly that
index. -/
theorem c7_module_order_index (db : Db) (newId id u : Str) (k : Nat)
    (hid : isUUID id = true)
    (c : Course) (hfind : db.courses.find? (fun x => x.id == id) = some c)
    (howner : c.owner_id = u)
    (hk : (modulesPOST db newId id (some u)).body = some (newId, k)) :
    (modulesPOST db newId id (some u)).status = 201 ∧
    (∀ m ∈ db.modules, m.course_id = id → m.order_index < k) ∧
    ((db.modules.filter (fun m => m.course_id == id)) = [] → k = 1) ∧
    ((db.modules.filter (fun m => m.course_id == id)) ≠ [] →
      ∃ m ∈ db.modules, m.course_id = id ∧ m.order_index + 1 = k) ∧
    (modulesPOST db newId id (some u)).db.modules = db.modules ++ [⟨newId, id, k⟩] := by
  have hko : k =
      (((db.modules.filter (fun m => m.course_id == id)).map Module.order_index).foldl
        max 0) + 1 := by
    have := hk
    simp [modulesPOST, hid, hfind, howner] at this
    omega
  subst hko
  refine ⟨by simp [modulesPOST, hid, hfind, howner], ?_, ?_, ?_,
    by simp [modulesPOST, hid, hfind, howner]⟩
  · intro m hm hmc
    have hmf : m ∈ db.modules.filter (fun m => m.course_id == id) :=
      List.mem_filter.mpr ⟨hm, by simp [hmc]⟩
    have : m.order_index ≤
        ((db.modules.filter (fun m => m.course_id == id)).map Module.order_index).foldl
          max 0 :=
      mem_le_foldl_max 0 (List.mem_map_of_mem Module.order_index hmf)
    omega
  · intro hnil
    simp [hnil]
  · intro hnn
    rcases List.mem_cons.mp
        (foldl_max_mem
          ((db.modules.filter (fun m => m.course_id == id)).map Module.order_index) 0)
      with h0 | hmem
    · obtain ⟨m, hm⟩ := List.exists_mem_of_ne_nil _ hnn
      have hle : m.order_index ≤
          ((db.modules.filter (fun m => m.course_id == id)).map Module.order_index).foldl
            max 0 :=
        mem_le_foldl_max 0 (List.mem_map_of_mem Module.order_index hm)
      refine ⟨m, (List.mem_filter.mp hm).1, ?_, ?_⟩
      · have := (List.mem_filter.mp hm).2
        simpa using this
      · omega
    · obtain ⟨m, hm, hmo⟩ := List.mem_map.mp hmem
      refine ⟨m, (List.mem_filter.mp hm).1, ?_, ?_⟩
      · have := (List.mem_filter.mp hm).2
        simpa using this
      · omega

/-- C7 witness: on the fixture store whose course has modules with order
indices 1, 2 and 5, the next module receives order index 6, and on the
course with no modules the first module receives order index 1. -/
theorem c7_module_order_index_witness :
    ((modulesPOST dbOrders uuidNew uuidA (some user1)).status = 201 ∧
     (∀ m ∈ dbOrders.modules, m.course_id = uuidA → m.order_index < 6) ∧
     ((dbOrders.modules.filter (fun m => m.course_id == uuidA)) = [] → 6 = 1) ∧
     ((dbOrders.modules.filter (fun m => m.course_id == uuidA)) ≠ [] →
       ∃ m ∈ dbOrders.modules, m.course_id = uuidA ∧ m.order_index + 1 = 6) ∧
     (modulesPOST dbOrders uuidNew uuidA (some user1)).db.modules =
       dbOrders.modules ++ [⟨uuidNew, uuidA, 6⟩]) ∧
    ((modulesPOST dbOrders uuidNew uuidB (some user1)).status = 201 ∧
     (∀ m ∈ dbOrders.modules, m.course_id = uuidB → m.order_index < 1) ∧
     ((dbOrders.modules.filter (fun m => m.course_id == uuidB)) = [] → 1 = 1) ∧
     ((dbOrders.modules.filter (fun m => m.course_id == uuidB)) ≠ [] →
       ∃ m ∈ dbOrders.modules, m.course_id = uuidB ∧ m.order_index + 1 = 1) ∧
     (modulesPOST dbOrders uuidNew uuidB (some user1)).db.modules =
       dbOrders.modules ++ [⟨uuidNew, uuidB, 1⟩]) :=
  ⟨c7_module_order_index dbOrders uuidNew uuidA user1 6 (by decide) course1
      (by decide) (by decide) (by decide),
   c7_module_order_index dbOrders uuidNew uuidB user1 1 (by decide) courseB
      (by decide) (by decide) (by decide)⟩

/-- C9: every endpoint that accepts a language parameter answers 400 and
issues no store action at all when given a non-empty language code outside
the set {ru, en, he}; the store is untouched. (An empty lang query
parameter is not a language code: the GET endpoints treat it as absent and
fall back to the default ru.) -/
theorem c9_invalid_lang_rejected_before_store (db : Db) (now : Nat)
    (newId id mid u lang : Str) (tl dsc sm : Option Str)
    (hl : ALLOWED.contains lang = false) (hne : lang ≠ [])
    (hid : isUUID id = true) (hmid : isUUID mid = true) :
    ((coursesGET db (some lang) (some u)).status = 400 ∧
     (coursesGET db (some lang) (some u)).db = db ∧
     (coursesGET db (some lang) (some u)).trace = []) ∧
    ((coursesPOST db now newId (some u) ⟨some lang, tl, dsc⟩).status = 400 ∧
     (coursesPOST db now newId (some u) ⟨some lang, tl, dsc⟩).db = db ∧
     (coursesPOST db now newId (some u) ⟨some lang, tl, dsc⟩).trace = []) ∧
    ((courseGET db id (some lang)).status = 400 ∧
     (courseGET db id (some lang)).db = db ∧
     (courseGET db id (some lang)).trace = []) ∧
    ((outlineGET db id (some lang)).status = 400 ∧
     (outlineGET db id (some lang)).db = db ∧
     (outlineGET db id (some lang)).trace = []) ∧
    ((courseLocalePOST db now id (some u) ⟨some lang, tl, dsc⟩).status = 400 ∧
     (courseLocalePOST db now id (some u) ⟨some lang, tl, dsc⟩).db = db ∧
     (courseLocalePOST db now id (some u) ⟨some lang, tl, dsc⟩).trace = []) ∧
    ((courseLocalePATCH db id (some u) ⟨some lang, tl, dsc⟩).status = 400 ∧
     (courseLocalePATCH db id (some u) ⟨some lang, tl, dsc⟩).db = db ∧
     (courseLocalePATCH db id (some u) ⟨some lang, tl, dsc⟩).trace = []) ∧
    ((moduleLocalePOST db mid (some u) ⟨some lang, tl, sm⟩).status = 400 ∧
     (moduleLocalePOST db mid (some u) ⟨some lang, tl, sm⟩).db = db ∧
     (moduleLocalePOST db mid (some u) ⟨some lang, tl, sm⟩).trace = []) ∧
    ((moduleLocalePATCH db mid (some u) ⟨some lang, tl, sm⟩).status = 400 ∧
     (moduleLocalePATCH db mid (some u) ⟨some lang, tl, sm⟩).db = db ∧
     (moduleLocalePATCH db mid (some u) ⟨some lang, tl, sm⟩).trace = []) := by
  have hq : langQueryParam (some lang) = lang := by
    simp [langQueryParam, beq_eq_false_iff_ne.mpr hne]
  have hl2 : ¬lang ∈ ALLOWED := by simpa using hl
  simp [coursesGET, coursesPOST, courseGET, outlineGET, courseLocalePOST,
    courseLocalePATCH, moduleLocalePOST, moduleLocalePATCH,
    hq, hl2, hid, hmid]

/-- C9 witness: every handler that takes a language rejects the code de
with 400, leaves the fixture store unchanged and issues no store action. -/
theorem c9_invalid_lang_rejected_before_store_witness :
    ((coursesGET db1 (some "de".toList) (some user1)).status = 400 ∧
     (coursesGET db1 (some "de".toList) (some user1)).db = db1 ∧
     (coursesGET db1 (some "de".toList) (some user1)).trace = []) ∧
    ((coursesPOST db1 99 uuidNew (some user1)
        ⟨some "de".toList, some "T".toList, none⟩).status = 400 ∧
     (coursesPOST db1 99 uuidNew (some user1)
        ⟨some "de".toList, some "T".toList, none⟩).db = db1 ∧
     (coursesPOST db1 99 uuidNew (some user1)
        ⟨some "de".toList, some "T".toList, none⟩).trace = []) ∧
    ((courseGET db1 uuidA (some "de".toList)).status = 400 ∧
     (courseGET db1 uuidA (some "de".toList)).db = db1 ∧
     (courseGET db1 uuidA (some "de".toList)).trace = []) ∧
    ((outlineGET db1 uuidA (some "de".toList)).status = 400 ∧
     (outlineGET db1 uuidA (some "de".toList)).db = db1 ∧
     (outlineGET db1 uuidA (some "de".toList)).trace = []) ∧
    ((courseLocalePOST db1 99 uuidA (some user1)
        ⟨some "de".toList, some "T".toList, none⟩).status = 400 ∧
     (courseLocalePOST db1 99 uuidA (some user1)
        ⟨some "de".toList, some "T".toList, none⟩).db = db1 ∧
     (courseLocalePOST db1 99 uuidA (some user1)
        ⟨some "de".toList, some "T".toList, none⟩).trace = []) ∧
    ((courseLocalePATCH db1 uuidA (some user1)
        ⟨some "de".toList, some "T".toList, none⟩).status = 400 ∧
     (courseLocalePATCH db1 uuidA (some user1)
        ⟨some "de".toList, some "T".toList, none⟩).db = db1 ∧
     (courseLocalePATCH db1 uuidA (some user1)
        ⟨some "de".toList, some "T".toList, none⟩).trace = []) ∧
    ((moduleLocalePOST db1 uuidM1 (some user1)
        ⟨some "de".toList, some "T".toList, none⟩).status = 400 ∧
     (moduleLocalePOST db1 uuidM1 (some user1)
        ⟨some "de".toList, some "T".toList, none⟩).db = db1 ∧
     (moduleLocalePOST db1 uuidM1 (some user1)
        ⟨some "de".toList, some "T".toList, none⟩).trace = []) ∧
    ((moduleLocalePATCH db1 uuidM1 (some user1)
        ⟨some "de".toList, some "T".toList, none⟩).status = 400 ∧
     (moduleLocalePATCH db1 uuidM1 (some user1)
        ⟨some "de".toList, some "T".toList, none⟩).db = db1 ∧
     (moduleLocalePATCH db1 uuidM1 (some user1)
        ⟨some "de".toList, some "T".toList, none⟩).trace = []) :=
  c9_invalid_lang_rejected_before_store db1 99 uuidNew uuidA uuidM1 user1
    "de".toList (some "T".toList) none none
    (by decide) (by decide) (by decide) (by decide)

theorem annotateModule_id (db : Db) (lang : Str) (m : Module) :
    (annotateModule db lang m).id = m.id := by
  unfold annotateModule
  cases hf : db.module_locales.find? (fun l => l.module_id == m.id && l.lang == lang) <;>
    simp [hf]

theorem annotateModule_order (db : Db) (lang : Str) (m : Module) :
    (annotateModule db lang m).order_index = m.order_index := by
  unfold annotateModule
  cases hf : db.module_locales.find? (fun l => l.module_id == m.id && l.lang == lang) <;>
    simp [hf]

theorem annotateModule_has_locale (db : Db) (lang : Str) (m : Module) :
    (annotateModule db lang m).has_locale =
      db.module_locales.any (fun l => l.module_id == m.id && l.lang == lang) := by
  unfold annotateModule
  cases hf : db.module_locales.find? (fun l => l.module_id == m.id && l.lang == lang) with
  | none =>
    have h2 : db.module_locales.any (fun l => l.module_id == m.id && l.lang == lang) = false :=
      List.any_eq_false.mpr (List.find?_eq_none.mp hf)
    simp [hf, h2]
  | some loc =>
    have hp : (fun l => l.module_id == m.id && l.lang == lang) loc = true :=
      @List.find?_some _ (fun l => l.module_id == m.id && l.lang == lang) loc
        db.module_locales hf
    have h2 : db.module_locales.any (fun l => l.module_id == m.id && l.lang == lang) = true :=
      List.any_eq_true.mpr ⟨loc, List.mem_of_find?_eq_some hf, hp⟩
    simp [hf, h2]

theorem annotateModule_title (db : Db) (lang : Str) (m : Module) :
    (annotateModule db lang m).title =
      (db.module_locales.find? (fun l => l.module_id == m.id && l.lang == lang)).map
        ModuleLocale.title := by
  unfold annotateModule
  cases hf : db.module_locales.find? (fun l => l.module_id == m.id && l.lang == lang) <;>
    simp [hf]

/-- C6: updating an existing course locale or module locale with only a
subset of the fields supplied answers 200, sets each supplied field to its
new value truncated to the declared limit, and leaves each omitted field —
and every unrelated row and table — byte-for-byte unchanged (COALESCE
semantics, never null-out). -/
theorem c6_partial_update_coalesce (db : Db) (id mid u langC langM : Str)
    (tl dsc mtl msm : Option Str)
    (hid : isUUID id = true) (hmid : isUUID mid = true)
    (hlC : ALLOWED.contains langC = true) (hlM : ALLOWED.contains langM = true)
    (ho : ensureOwner db id u = true)
    (hom : ensureOwnerByModule db mid u = true)
    (hex : db.course_locales.any (fun l => l.course_id == id && l.lang == langC) = true)
    (hmex : db.module_locales.any (fun l => l.module_id == mid && l.lang == langM) = true) :
    ((courseLocalePATCH db id (some u) ⟨some langC, tl, dsc⟩).status = 200 ∧
     (courseLocalePATCH db id (some u) ⟨some langC, tl, dsc⟩).db.course_locales.find?
        (fun l => l.course_id == id && l.lang == langC) =
       (db.course_locales.find? (fun l => l.course_id == id && l.lang == langC)).map
         (fun l => ⟨l.course_id, l.lang, (tl.map (List.take 120)).getD l.title,
            (dsc.map (List.take 4000)).getD l.description⟩) ∧
     (∀ l ∈ db.course_locales, ¬(l.course_id = id ∧ l.lang = langC) →
        l ∈ (courseLocalePATCH db id (some u) ⟨some langC, tl, dsc⟩).db.course_locales) ∧
     (courseLocalePATCH db id (some u) ⟨some langC, tl, dsc⟩).db.courses = db.courses ∧
     (courseLocalePATCH db id (some u) ⟨some langC, tl, dsc⟩).db.modules = db.modules ∧
     (courseLocalePATCH db id (some u) ⟨some langC, tl, dsc⟩).db.module_locales =
       db.module_locales) ∧
    ((moduleLocalePATCH db mid (some u) ⟨some langM, mtl, msm⟩).status = 200 ∧
     (moduleLocalePATCH db mid (some u) ⟨some langM, mtl, msm⟩).db.module_locales.find?
        (fun l => l.module_id == mid && l.lang == langM) =
       (db.module_locales.find? (fun l => l.module_id == mid && l.lang == langM)).map
         (fun l => ⟨l.module_id, l.lang, (mtl.map (List.take 120)).getD l.title,
            (msm.map (List.take 4000)).getD l.summary⟩) ∧
     (∀ l ∈ db.module_locales, ¬(l.module_id = mid ∧ l.lang = langM) →
        l ∈ (moduleLocalePATCH db mid (some u) ⟨some langM, mtl, msm⟩).db.module_locales) ∧
     (moduleLocalePATCH db mid (some u) ⟨some langM, mtl, msm⟩).db.courses = db.courses ∧
     (moduleLocalePATCH db mid (some u) ⟨some langM, mtl, msm⟩).db.course_locales =
       db.course_locales ∧
     (moduleLocalePATCH db mid (some u) ⟨some langM, mtl, msm⟩).db.modules = db.modules) := by
  have hlC2 : langC ∈ ALLOWED := by simpa using hlC
  have hlM2 : langM ∈ ALLOWED := by simpa using hlM
  have hdbC : (courseLocalePATCH db id (some u) ⟨some langC, tl, dsc⟩).db.course_locales =
      db.course_locales.map (fun l =>
        if l.course_id == id && l.lang == langC then
          ⟨l.course_id, l.lang, (tl.map (List.take 120)).getD l.title,
           (dsc.map (List.take 4000)).getD l.description⟩
        else l) := by
    simp [courseLocalePATCH, hid, hlC2, ho, hex]
  have hdbM : (moduleLocalePATCH db mid (some u) ⟨some langM, mtl, msm⟩).db.module_locales =
      db.module_locales.map (fun l =>
        if l.module_id == mid && l.lang == langM then
          ⟨l.module_id, l.lang, (mtl.map (List.take 120)).getD l.title,
           (msm.map (List.take 4000)).getD l.summary⟩
        else l) := by
    simp [moduleLocalePATCH, hmid, hlM2, hom, hmex]
  refine ⟨⟨by simp [courseLocalePATCH, hid, hlC2, ho, hex], ?_, ?_,
      by simp [courseLocalePATCH, hid, hlC2, ho, hex],
      by simp [courseLocalePATCH, hid, hlC2, ho, hex],
      by simp [courseLocalePATCH, hid, hlC2, ho, hex]⟩,
    ⟨by simp [moduleLocalePATCH, hmid, hlM2, hom, hmex], ?_, ?_,
      by simp [moduleLocalePATCH, hmid, hlM2, hom, hmex],
      by simp [moduleLocalePATCH, hmid, hlM2, hom, hmex],
      by simp [moduleLocalePATCH, hmid, hlM2, hom, hmex]⟩⟩
  · rw [hdbC]
    exact find?_map_update _ _ (fun a => by simp) _
  · intro l hl hnot
    rw [hdbC]
    apply mem_map_update_of_not _ _ hl
    apply Bool.eq_false_iff.mpr
    intro hp
    exact hnot (by simpa using hp)
  · rw [hdbM]
    exact find?_map_update _ _ (fun a => by simp) _
  · intro l hl hnot
    rw [hdbM]
    apply mem_map_update_of_not _ _ hl
    apply Bool.eq_false_iff.mpr
    intro hp
    exact hnot (by simpa using hp)

/-- C6 witness: on the fixture store, patching only the title of the ru
course locale keeps its description, and patching only the summary of the
ru module locale keeps its title; nothing else changes. -/
theorem c6_partial_update_coalesce_witness :
    ((courseLocalePATCH db1 uuidA (some user1)
        ⟨some "ru".toList, some "New".toList, none⟩).status = 200 ∧
     (courseLocalePATCH db1 uuidA (some user1)
        ⟨some "ru".toList, some "New".toList, none⟩).db.course_locales.find?
        (fun l => l.course_id == uuidA && l.lang == "ru".toList) =
       (db1.course_locales.find? (fun l => l.course_id == uuidA && l.lang == "ru".toList)).map
         (fun l => ⟨l.course_id, l.lang,
            ((some "New".toList).map (List.take 120)).getD l.title,
            ((none : Option Str).map (List.take 4000)).getD l.description⟩) ∧
     (∀ l ∈ db1.course_locales, ¬(l.course_id = uuidA ∧ l.lang = "ru".toList) →
        l ∈ (courseLocalePATCH db1 uuidA (some user1)
          ⟨some "ru".toList, some "New".toList, none⟩).db.course_locales) ∧
     (courseLocalePATCH db1 uuidA (some user1)
        ⟨some "ru".toList, some "New".toList, none⟩).db.courses = db1.courses ∧
     (courseLocalePATCH db1 uuidA (some user1)
        ⟨some "ru".toList, some "New".toList, none⟩).db.modules = db1.modules ∧
     (courseLocalePATCH db1 uuidA (some user1)
        ⟨some "ru".toList, some "New".toList, none⟩).db.module_locales =
       db1.module_locales) ∧
    ((moduleLocalePATCH db1 uuidM1 (some user1)
        ⟨some "ru".toList, none, some "S2".toList⟩).status = 200 ∧
     (moduleLocalePATCH db1 uuidM1 (some user1)
        ⟨some "ru".toList, none, some "S2".toList⟩).db.module_locales.find?
        (fun l => l.module_id == uuidM1 && l.lang == "ru".toList) =
       (db1.module_locales.find? (fun l => l.module_id == uuidM1 && l.lang == "ru".toList)).map
         (fun l => ⟨l.module_id, l.lang,
            ((none : Option Str).map (List.take 120)).getD l.title,
            ((some "S2".toList).map (List.take 4000)).getD l.summary⟩) ∧
     (∀ l ∈ db1.module_locales, ¬(l.module_id = uuidM1 ∧ l.lang = "ru".toList) →
        l ∈ (moduleLocalePATCH db1 uuidM1 (some user1)
          ⟨some "ru".toList, none, some "S2".toList⟩).db.module_locales) ∧
     (moduleLocalePATCH db1 uuidM1 (some user1)
        ⟨some "ru".toList, none, some "S2".toList⟩).db.courses = db1.courses ∧
     (moduleLocalePATCH db1 uuidM1 (some user1)
        ⟨some "ru".toList, none, some "S2".toList⟩).db.course_locales =
       db1.course_locales ∧
     (moduleLocalePATCH db1 uuidM1 (some user1)
        ⟨some "ru".toList, none, some "S2".toList⟩).db.modules = db1.modules) :=
  c6_partial_update_coalesce db1 uuidA uuidM1 user1 "ru".toList "ru".toList
    (some "New".toList) none none (some "S2".toList)
    (by decide) (by decide) (by decide) (by decide) (by decide) (by decide)
    (by decide) (by decide)

/-- C8: for every course and allowed language, the outline fetch answers
200 with the course's modules ordered by order_index ascending, one item
per module, each annotated with has_locale true and the locale's title
exactly when a module-locale row exists for that module and language, and
has_locale false with title none when none exists. -/
theorem c8_outline_sorted_annotated (db : Db) (id lang : Str)
    (hid : isUUID id = true) (hl : ALLOWED.contains lang = true) :
    (outlineGET db id (some lang)).status = 200 ∧
    (outlineGET db id (some lang)).body = some (lang, outlineItems db id lang) ∧
    (outlineItems db id lang).Pairwise (fun a b => a.order_index ≤ b.order_index) ∧
    (outlineItems db id lang).length =
      (db.modules.filter (fun m => m.course_id == id)).length ∧
    (∀ m ∈ db.modules, m.course_id = id →
      ∃ it ∈ outlineItems db id lang, it.id = m.id ∧
        it.order_index = m.order_index ∧
        it.has_locale =
          db.module_locales.any (fun l => l.module_id == m.id && l.lang == lang) ∧
        it.title =
          (db.module_locales.find? (fun l => l.module_id == m.id && l.lang == lang)).map
            ModuleLocale.title) ∧
    (∀ it ∈ outlineItems db id lang, ∃ m ∈ db.modules, m.course_id = id ∧
      it.id = m.id ∧ it.order_index = m.order_index) := by
  have hl2 : lang ∈ ALLOWED := by simpa using hl
  have hq : langQueryParam (some lang) = lang := by
    simp [langQueryParam, allowed_lang_ne_nil hl]
  refine ⟨by simp [outlineGET, hq, hl2, hid], by simp [outlineGET, hq, hl2, hid],
    ?_, ?_, ?_, ?_⟩
  · have hs := List.sorted_insertionSort byOrder
      (db.modules.filter (fun m => m.course_id == id))
    unfold outlineItems
    rw [List.pairwise_map]
    exact hs.imp (fun hab => by
      simpa [annotateModule_order, byOrder] using hab)
  · unfold outlineItems
    simp [List.length_insertionSort]
  · intro m hm hmc
    have hmf : m ∈ db.modules.filter (fun x => x.course_id == id) :=
      List.mem_filter.mpr ⟨hm, by simp [hmc]⟩
    have hms : m ∈ List.insertionSort byOrder
        (db.modules.filter (fun x => x.course_id == id)) :=
      ((List.perm_insertionSort byOrder _).mem_iff).mpr hmf
    exact ⟨annotateModule db lang m, List.mem_map_of_mem _ hms,
      annotateModule_id db lang m, annotateModule_order db lang m,
      annotateModule_has_locale db lang m, annotateModule_title db lang m⟩
  · intro it hit
    unfold outlineItems at hit
    obtain ⟨m, hms, rfl⟩ := List.mem_map.mp hit
    have hmf : m ∈ db.modules.filter (fun x => x.course_id == id) :=
      ((List.perm_insertionSort byOrder _).mem_iff).mp hms
    have h2 := List.mem_filter.mp hmf
    exact ⟨m, h2.1, by simpa using h2.2, annotateModule_id db lang m,
      annotateModule_order db lang m⟩

/-- C8 witness: on the fixture store, fetching the outline for ru returns
the two modules in order 1, 2, the first annotated with its Intro locale,
the second with has_locale false and title none. -/
theorem c8_outline_sorted_annotated_witness :
    (outlineGET db1 uuidA (some "ru".toList)).status = 200 ∧
    (outlineGET db1 uuidA (some "ru".toList)).body =
      some ("ru".toList, outlineItems db1 uuidA "ru".toList) ∧
    (outlineItems db1 uuidA "ru".toList).Pairwise
      (fun a b => a.order_index ≤ b.order_index) ∧
    (outlineItems db1 uuidA "ru".toList).length =
      (db1.modules.filter (fun m => m.course_id == uuidA)).length ∧
    (∀ m ∈ db1.modules, m.course_id = uuidA →
      ∃ it ∈ outlineItems db1 uuidA "ru".toList, it.id = m.id ∧
        it.order_index = m.order_index ∧
        it.has_locale =
          db1.module_locales.any (fun l => l.module_id == m.id && l.lang == "ru".toList) ∧
        it.title =
          (db1.module_locales.find?
            (fun l => l.module_id == m.id && l.lang == "ru".toList)).map
            ModuleLocale.title) ∧
    (∀ it ∈ outlineItems db1 uuidA "ru".toList, ∃ m ∈ db1.modules,
      m.course_id = uuidA ∧ it.id = m.id ∧ it.order_index = m.order_index) :=
  c8_outline_sorted_annotated db1 uuidA "ru".toList (by decide) (by decide)

theorem find?_append_of_none {α : Type} {p : α → Bool} {l1 l2 : List α}
    (h : l1.find? p = none) : (l1 ++ l2).find? p = l2.find? p := by
  rw [List.find?_append, h, Option.none_or]

/-- C2 counterexample: the claim says every creation of a CourseLocale
stores the title truncated to 120 characters and the description truncated
to 4000 characters. Both parts fail: the course-creation path truncates
the description to 2000 characters, so a 2001-character description is
stored as a different row than claimed; and the create-locale path trims
the title before truncating, so a title with surrounding blanks is not
stored as its truncation-to-120. -/
theorem c2_counterexample :
    ((coursesPOST db0 12345 uuidB (some user1)
        ⟨some "ru".toList, some "T".toList,
         some (List.replicate 2001 'a')⟩).db.course_locales ≠
      [⟨uuidB, "ru".toList, "T".toList, (List.replicate 2001 'a').take 4000⟩]) ∧
    ((courseLocalePOST db1 99 uuidA (some user1)
        ⟨some "en".toList, some "  T  ".toList, some "D".toList⟩).db.course_locales.map
        CourseLocale.title ≠ [locRu.title, ("  T  ".toList).take 120]) := by
  refine ⟨?_, by decide⟩
  intro h
  have h1 : (coursesPOST db0 12345 uuidB (some user1)
      ⟨some "ru".toList, some "T".toList,
       some (List.replicate 2001 'a')⟩).db.course_locales =
      [⟨uuidB, "ru".toList, "T".toList, (List.replicate 2001 'a').take 2000⟩] := rfl
  rw [h1] at h
  injection h with hrow _
  have h2 : (List.replicate 2001 'a').take 2000 = (List.replicate 2001 'a').take 4000 :=
    congrArg CourseLocale.description hrow
  have h3 := congrArg List.length h2
  rw [List.length_take, List.length_take, List.length_replicate] at h3
  omega

/-- C2 (amended): the course-creation path stores the CourseLocale title
truncated to 120 characters (untrimmed; the placeholder when absent) and
the description truncated to 2000 characters; the create-locale path
stores the title trimmed then truncated to 120 characters and the
description truncated to 4000 characters; in both cases immediately
fetching the course for that language returns exactly the stored locale
row with missing = false. -/
theorem c2_locale_storage_roundtrip (db : Db) (now : Nat) (newId id u lang : Str)
    (tl dsc tl2 dsc2 : Option Str)
    (hl : ALLOWED.contains lang = true)
    (hnew : isUUID newId = true)
    (hid : isUUID id = true)
    (hfreshC : ∀ c ∈ db.courses, c.id ≠ newId)
    (hfreshL : ∀ l ∈ db.course_locales, l.course_id ≠ newId)
    (ho : ensureOwner db id u = true)
    (hne : db.course_locales.any (fun l => l.course_id == id && l.lang == lang) = false)
    (htl2 : (trimStr (tl2.getD []) == ([] : Str)) = false) :
    ((coursesPOST db now newId (some u) ⟨some lang, tl, dsc⟩).db.course_locales =
       db.course_locales ++ [⟨newId, lang, (tl.getD (defaultCourseTitle lang)).take 120,
          (dsc.getD []).take 2000⟩] ∧
     ((courseGET (coursesPOST db now newId (some u) ⟨some lang, tl, dsc⟩).db newId
          (some lang)).body.map CourseDetail.locale) =
       some (some ⟨newId, lang, (tl.getD (defaultCourseTitle lang)).take 120,
          (dsc.getD []).take 2000⟩) ∧
     ((courseGET (coursesPOST db now newId (some u) ⟨some lang, tl, dsc⟩).db newId
          (some lang)).body.map CourseDetail.missing) = some false) ∧
    ((courseLocalePOST db now id (some u) ⟨some lang, tl2, dsc2⟩).db.course_locales =
       db.course_locales ++ [⟨id, lang, (trimStr (tl2.getD [])).take 120,
          (dsc2.getD []).take 4000⟩] ∧
     ((courseGET (courseLocalePOST db now id (some u) ⟨some lang, tl2, dsc2⟩).db id
          (some lang)).body.map CourseDetail.locale) =
       some (some ⟨id, lang, (trimStr (tl2.getD [])).take 120,
          (dsc2.getD []).take 4000⟩) ∧
     ((courseGET (courseLocalePOST db now id (some u) ⟨some lang, tl2, dsc2⟩).db id
          (some lang)).body.map CourseDetail.missing) = some false) := by
  have hl2 : lang ∈ ALLOWED := by simpa using hl
  have hq : langQueryParam (some lang) = lang := by
    simp [langQueryParam, allowed_lang_ne_nil hl]
  constructor
  · -- course creation path
    have hcs : (coursesPOST db now newId (some u) ⟨some lang, tl, dsc⟩).db.courses =
        db.courses ++ [⟨newId, u, "course-".toList ++ Nat.toDigits 10 now,
          "draft".toList, [lang], now⟩] := by
      simp [coursesPOST, hl2]
    have hls : (coursesPOST db now newId (some u) ⟨some lang, tl, dsc⟩).db.course_locales =
        db.course_locales ++ [⟨newId, lang, (tl.getD (defaultCourseTitle lang)).take 120,
          (dsc.getD []).take 2000⟩] := by
      simp [coursesPOST, hl2]
    have hpc : db.courses.find? (fun c => c.id == newId) = none :=
      List.find?_eq_none.mpr (fun c hc => by simp [hfreshC c hc])
    have hpl : db.course_locales.find?
        (fun l => l.course_id == newId && l.lang == lang) = none :=
      List.find?_eq_none.mpr (fun l hl => by simp [hfreshL l hl])
    refine ⟨hls, ?_, ?_⟩ <;>
      simp [courseGET, hq, hl2, hnew, hcs, hls, hpc, hpl]
  · -- create-locale path
    have hcs : (courseLocalePOST db now id (some u) ⟨some lang, tl2, dsc2⟩).db.courses =
        db.courses.map (fun c =>
          if c.id == id then
            { c with
              supported_langs :=
                if c.supported_langs.contains lang then c.supported_langs
                else c.supported_langs ++ [lang],
              updated_at := now }
          else c) := by
      simp [courseLocalePOST, hid, hl2, ho, hne, htl2]
    have hls : (courseLocalePOST db now id (some u)
        ⟨some lang, tl2, dsc2⟩).db.course_locales =
        db.course_locales ++ [⟨id, lang, (trimStr (tl2.getD [])).take 120,
          (dsc2.getD []).take 4000⟩] := by
      simp [courseLocalePOST, hid, hl2, ho, hne, htl2]
    have hfc0 : (db.courses.map (fun c =>
        if c.id == id then
          { c with
            supported_langs :=
              if c.supported_langs.contains lang then c.supported_langs
              else c.supported_langs ++ [lang],
            updated_at := now }
        else c)).find? (fun c => c.id == id) =
        (db.courses.find? (fun c => c.id == id)).map (fun c =>
          { c with
            supported_langs :=
              if c.supported_langs.contains lang then c.supported_langs
              else c.supported_langs ++ [lang],
            updated_at := now }) :=
      find?_map_update _ _ (fun a => by simp) _
    have hsome : (db.courses.find? (fun c => c.id == id)).isSome = true := by
      apply List.find?_isSome.mpr
      obtain ⟨c, hc, hp⟩ := List.any_eq_true.mp ho
      rw [Bool.and_eq_true] at hp
      exact ⟨c, hc, hp.1⟩
    obtain ⟨c0, hc0⟩ := Option.isSome_iff_exists.mp hsome
    have hpl : db.course_locales.find?
        (fun l => l.course_id == id && l.lang == lang) = none :=
      List.find?_eq_none.mpr (List.any_eq_false.mp hne)
    have hfind2 : (courseLocalePOST db now id (some u)
        ⟨some lang, tl2, dsc2⟩).db.courses.find? (fun c => c.id == id) =
        some { c0 with
          supported_langs :=
            if c0.supported_langs.contains lang then c0.supported_langs
            else c0.supported_langs ++ [lang],
          updated_at := now } := by
      rw [hcs, hfc0, hc0]
      rfl
    have hfl2 : (courseLocalePOST db now id (some u)
        ⟨some lang, tl2, dsc2⟩).db.course_locales.find?
        (fun l => l.course_id == id && l.lang == lang) =
        some ⟨id, lang, (trimStr (tl2.getD [])).take 120,
          (dsc2.getD []).take 4000⟩ := by
      rw [hls, find?_append_of_none hpl]
      simp
    refine ⟨hls, ?_, ?_⟩ <;>
      simp [courseGET, hq, hl2, hid, hfind2, hfl2]

/-- C2 witness: on the fixture store, creating a fresh course (title
Hello, description World) and then an en locale on the existing course
(title with surrounding blanks, description D) stores the documented
truncations and fetching each course returns exactly the stored rows. -/
theorem c2_locale_storage_roundtrip_witness :
    ((coursesPOST db1 99 uuidNew (some user1)
        ⟨some "en".toList, some "Hello".toList, some "World".toList⟩).db.course_locales =
       db1.course_locales ++ [⟨uuidNew, "en".toList,
          (((some "Hello".toList).getD (defaultCourseTitle "en".toList))).take 120,
          (((some "World".toList).getD [])).take 2000⟩] ∧
     ((courseGET (coursesPOST db1 99 uuidNew (some user1)
          ⟨some "en".toList, some "Hello".toList, some "World".toList⟩).db uuidNew
          (some "en".toList)).body.map CourseDetail.locale) =
       some (some ⟨uuidNew, "en".toList,
          (((some "Hello".toList).getD (defaultCourseTitle "en".toList))).take 120,
          (((some "World".toList).getD [])).take 2000⟩) ∧
     ((courseGET (coursesPOST db1 99 uuidNew (some user1)
          ⟨some "en".toList, some "Hello".toList, some "World".toList⟩).db uuidNew
          (some "en".toList)).body.map CourseDetail.missing) = some false) ∧
    ((courseLocalePOST db1 99 uuidA (some user1)
        ⟨some "en".toList, some "  Title  ".toList, some "D".toList⟩).db.course_locales =
       db1.course_locales ++ [⟨uuidA, "en".toList,
          (trimStr ((some "  Title  ".toList).getD [])).take 120,
          (((some "D".toList).getD [])).take 4000⟩] ∧
     ((courseGET (courseLocalePOST db1 99 uuidA (some user1)
          ⟨some "en".toList, some "  Title  ".toList, some "D".toList⟩).db uuidA
          (some "en".toList)).body.map CourseDetail.locale) =
       some (some ⟨uuidA, "en".toList,
          (trimStr ((some "  Title  ".toList).getD [])).take 120,
          (((some "D".toList).getD [])).take 4000⟩) ∧
     ((courseGET (courseLocalePOST db1 99 uuidA (some user1)
          ⟨some "en".toList, some "  Title  ".toList, some "D".toList⟩).db uuidA
          (some "en".toList)).body.map CourseDetail.missing) = some false) :=
  c2_locale_storage_roundtrip db1 99 uuidNew uuidA user1 "en".toList
    (some "Hello".toList) (some "World".toList)
    (some "  Title  ".toList) (some "D".toList)
    (by decide) (by decide) (by decide) (by decide) (by decide) (by decide)
    (by decide) (by decide)

/-- C3 counterexample: the claim says the CourseLocale row created with
the course carries the supplied title; the code truncates the title to 120
characters, so a 121-character supplied title is stored differently. -/
theorem c3_counterexample :
    (coursesPOST db0 7 uuidB (some user1)
        ⟨some "en".toList, some (List.replicate 121 'a'), none⟩).db.course_locales.map
      CourseLocale.title ≠ [List.replicate 121 'a'] := by
  intro h
  have h1 : (coursesPOST db0 7 uuidB (some user1)
      ⟨some "en".toList, some (List.replicate 121 'a'), none⟩).db.course_locales.map
      CourseLocale.title = [(List.replicate 121 'a').take 120] := rfl
  rw [h1] at h
  injection h with hrow _
  have h3 := congrArg List.length hrow
  rw [List.length_take, List.length_replicate] at h3
  omega

/-- C3 (amended): every valid course creation answers 201 with the new
course identifier, atomically (all writes inside one transaction on the
dedicated client) inserts a Course whose supported_langs is exactly the
one-element array of the requested language, and a CourseLocale row for
that language whose title is the supplied title truncated to 120
characters or, when the title is omitted, the per-language placeholder
default. -/
theorem c3_course_create_atomic (db : Db) (now : Nat) (newId u lang : Str)
    (tl dsc : Option Str)
    (hl : ALLOWED.contains lang = true)
    (hfreshC : ∀ c ∈ db.courses, c.id ≠ newId)
    (hfreshL : ∀ l ∈ db.course_locales, l.course_id ≠ newId) :
    (coursesPOST db now newId (some u) ⟨some lang, tl, dsc⟩).status = 201 ∧
    (coursesPOST db now newId (some u) ⟨some lang, tl, dsc⟩).body = some newId ∧
    ((coursesPOST db now newId (some u) ⟨some lang, tl, dsc⟩).db.courses.filter
        (fun c => c.id == newId)).map Course.supported_langs = [[lang]] ∧
    ((coursesPOST db now newId (some u) ⟨some lang, tl, dsc⟩).db.course_locales.filter
        (fun l => l.course_id == newId)).map (fun l => (l.lang, l.title)) =
      [(lang, (tl.getD (defaultCourseTitle lang)).take 120)] ∧
    withinOneTransaction
      (coursesPOST db now newId (some u) ⟨some lang, tl, dsc⟩).trace = true := by
  have hl2 : lang ∈ ALLOWED := by simpa using hl
  have hfc : db.courses.filter (fun c => c.id == newId) = [] :=
    List.filter_eq_nil_iff.mpr (fun c hc => by simp [hfreshC c hc])
  have hfl : db.course_locales.filter (fun l => l.course_id == newId) = [] :=
    List.filter_eq_nil_iff.mpr (fun l hl => by simp [hfreshL l hl])
  refine ⟨by simp [coursesPOST, hl2], by simp [coursesPOST, hl2], ?_, ?_,
    by simp [coursesPOST, hl2, withinOneTransaction, isClientQuery]⟩
  · simp [coursesPOST, hl2, List.filter_append, hfc]
  · simp [coursesPOST, hl2, List.filter_append, hfl]

/-- C3 witness: on the fixture store, creating a ru course with no title
and no description yields 201 with the new identifier, supported_langs
exactly [ru], the placeholder title Новый курс on the locale row, and a
trace contained in one transaction. -/
theorem c3_course_create_atomic_witness :
    (coursesPOST db1 99 uuidNew (some user1)
        ⟨some "ru".toList, none, none⟩).status = 201 ∧
    (coursesPOST db1 99 uuidNew (some user1)
        ⟨some "ru".toList, none, none⟩).body = some uuidNew ∧
    ((coursesPOST db1 99 uuidNew (some user1)
        ⟨some "ru".toList, none, none⟩).db.courses.filter
        (fun c => c.id == uuidNew)).map Course.supported_langs = [["ru".toList]] ∧
    ((coursesPOST db1 99 uuidNew (some user1)
        ⟨some "ru".toList, none, none⟩).db.course_locales.filter
        (fun l => l.course_id == uuidNew)).map (fun l => (l.lang, l.title)) =
      [("ru".toList,
        (((none : Option Str)).getD (defaultCourseTitle "ru".toList)).take 120)] ∧
    withinOneTransaction
      (coursesPOST db1 99 uuidNew (some user1)
        ⟨some "ru".toList, none, none⟩).trace = true :=
  c3_course_create_atomic db1 99 uuidNew user1 "ru".toList none none
    (by decide) (by decide) (by decide)

end CourseBuilder
